import Mathlib

/-!
Shallow embedding of the grading pipeline of `programming_analyzer.py`
(RubricAI).  External effects — the language-model oracle
(`generate_content` plus JSON parsing) and the container engine — are
modelled as explicit inputs: an `Option`/list value stands for the parsed
result of one external call, with `none` standing for an exception
(connection error, malformed response, JSON parse failure).  All repository
logic (control flow, string comparison, aggregation) is embedded directly
from the source.  Python floats are modelled as rationals.
-/

/-- Model of Python `str.strip()`: drop whitespace characters from both
ends (ASCII whitespace, which covers the characters in play). -/
def pyStrip (s : String) : String :=
  String.mk (((s.data.dropWhile Char.isWhitespace).reverse.dropWhile
    Char.isWhitespace).reverse)

/-- Model of Python `str.lower()` (ASCII case folding, which covers the
characters in play). -/
def pyLower (s : String) : String :=
  String.mk (s.data.map Char.toLower)

/-- Model of Python `pat in code` over explicit character lists:
`isPrefixCharList p s` is the check that `p` is a prefix of `s`. -/
def isPrefixCharList : List Char → List Char → Bool
  | [], _ => true
  | _ :: _, [] => false
  | p :: ps, c :: cs => p == c && isPrefixCharList ps cs

/-- Substring occurrence over character lists: some suffix of `s` has `pat`
as a prefix. -/
def occursInCharList (pat : List Char) : List Char → Bool
  | [] => isPrefixCharList pat []
  | c :: cs => isPrefixCharList pat (c :: cs) || occursInCharList pat cs

/-- Python `pat in s` (substring containment) on strings. -/
def occursIn (pat s : String) : Bool :=
  occursInCharList pat.data s.data

/-- Python `str.isdigit` restricted to ASCII decimal digits: nonempty and
all characters are digits. -/
def isDigitStr (s : String) : Bool :=
  !s.data.isEmpty && s.data.all Char.isDigit

/-- Model of `re.search(r"\d+", s)`: the first maximal run of decimal
digits in `s`, as a character list, if any. -/
def firstDigitRun : List Char → Option (List Char)
  | [] => none
  | c :: cs =>
    if c.isDigit then some (c :: cs.takeWhile Char.isDigit)
    else firstDigitRun cs

/-- The first integer-like token of a string (`re.search(r"\d+", s)` and
`match.group(0)`). -/
def firstDigitToken (s : String) : Option String :=
  (firstDigitRun s.data).map (fun cs => String.mk cs)

/-- Pass/fail output comparison of `_run_code_in_docker`
(programming_analyzer.py lines 278-291): normalize both strings
(strip + lowercase); if the expected string is purely numeric, pass when
the first integer-like token of the actual output equals it, otherwise
fall through to exact normalized equality. -/
def verifyOutput (output expected : String) : Bool :=
  let sanitized_output := pyLower (pyStrip output)
  let sanitized_expected := pyLower (pyStrip expected)
  if isDigitStr sanitized_expected then
    match firstDigitToken sanitized_output with
    | some tok =>
      if tok == sanitized_expected then true
      else sanitized_output == sanitized_expected
    | none => sanitized_output == sanitized_expected
  else
    sanitized_output == sanitized_expected

/-- One generated test case (`{"input": ..., "expected_output": ...}`). -/
structure TestCase where
  input : String
  expected_output : String
deriving DecidableEq

/-- One diagnostic execution result built by `_evaluate_test_cases`. -/
structure ExecutionResult where
  input : String
  expected : String
  passed : Bool
  actual : String
  error_message : String
deriving DecidableEq

/-- Parsed JSON of the intent-check oracle call.  A field is `none` when
the key is missing from the parsed object (Python `dict.get` default). -/
structure ProblemAnalysis where
  solves_intended_problem : Option Bool
  actual_problem_solved : Option String
  mismatch_explanation : Option String
deriving DecidableEq

/-- Parsed JSON of the static-judgment oracle call (`score`,
`justification`); a field is `none` when the key is missing. -/
structure StaticJudgment where
  score : Option ℚ
  justification : Option String
deriving DecidableEq

/-- The five literal substrings scanned for by `_requires_input`. -/
def inputPatterns : List String :=
  ["input(", "scanf", "cin", "readLine", "Scanner"]

/-- `_requires_input` (programming_analyzer.py lines 161-163): the source
text contains one of the five input-consuming substrings. -/
def requires_input (code : String) : Bool :=
  inputPatterns.any (fun pat => occursIn pat code)

/-- Label normalization of `_detect_language` (lines 177-186), applied to
the oracle label after strip+lower. -/
def normalizeLang (lang : String) : String :=
  if ["cpp", "c++", "c plus plus"].any (fun word => occursIn word lang) then "c++"
  else if isPrefixCharList "python".data lang.data then "python"
  else if isPrefixCharList "java".data lang.data then "java"
  else if lang == "c" || occursIn "c lang" lang then "c"
  else "unsupported"

/-- `_detect_language` at the oracle boundary: `resp` is the oracle's raw
label text (`none` = the oracle call raised). -/
def detect_language (resp : Option String) : Option String :=
  resp.map (fun t => normalizeLang (pyLower (pyStrip t)))

/-- The four languages with a sandbox execution recipe
(lines 237-255 / 363-378). -/
def langSupported (lang : String) : Bool :=
  lang == "python" || lang == "c++" || lang == "c" || lang == "java"

/-- Pass counting loop of `_run_code_in_docker` (lines 232-299): per test
case, an unsupported language skips the case; a container error
(`exec idx = .error`) skips the case; otherwise the captured stdout is
compared by the pass/fail verifier. -/
def runPassCountAux (lang : String) (exec : Nat → Except String String) :
    Nat → List TestCase → Nat
  | _, [] => 0
  | idx, tc :: rest =>
    (if langSupported lang then
      match exec idx with
      | .ok out => if verifyOutput out tc.expected_output then 1 else 0
      | .error _ => 0
    else 0) + runPassCountAux lang exec (idx + 1) rest

/-- `_run_code_in_docker` (lines 217-301): raises `ConnectionError` when
the container engine is unreachable (`dockerUp = false`), otherwise
normalizes the language and counts passed test cases.  `exec idx` is the
sandbox outcome of test case `idx`: captured stdout, or `.error` for a
compile/runtime failure of that single case. -/
def run_code_in_docker (dockerUp : Bool) (language : String)
    (test_cases : List TestCase) (exec : Nat → Except String String) :
    Except String Nat :=
  if !dockerUp then
    .error "Docker is not running. Please start the Docker daemon."
  else
    .ok (runPassCountAux (pyLower (pyStrip language)) exec 0 test_cases)

/-- Affirmative primality indicator phrases (lines 403-406). -/
def primeIndicatorsTrue : List String :=
  ["is prime", "is a prime", "prime number", "true"]

/-- Negative primality indicator phrases (lines 403-406). -/
def primeIndicatorsFalse : List String :=
  ["not prime", "not a prime", "composite", "false"]

/-- Diagnostic comparison of one test case in `_evaluate_test_cases`
(lines 349-427): a container error yields a failed result with the error
detail; otherwise semantic indicator phrases decide `passed`. -/
def evalOneCase (tc : TestCase) (outcome : Except String String) :
    ExecutionResult :=
  match outcome with
  | .error err =>
    { input := tc.input, expected := tc.expected_output, passed := false,
      actual := "", error_message := "Runtime Error: " ++ err }
  | .ok out =>
    let actual := pyStrip out
    let sanitized_output := pyLower actual
    let sanitized_expected := pyLower (pyStrip tc.expected_output)
    let expected_prime := sanitized_expected == "true" || sanitized_expected == "1"
    let passed :=
      if expected_prime then
        primeIndicatorsTrue.any (fun ind => occursIn ind sanitized_output)
      else
        primeIndicatorsFalse.any (fun ind => occursIn ind sanitized_output)
    { input := tc.input, expected := tc.expected_output, passed := passed,
      actual := actual,
      error_message := if passed then "" else "Output indicates wrong primality" }

/-- Loop of `_evaluate_test_cases` over the test cases. -/
def evaluateTestCasesAux (exec : Nat → Except String String) :
    Nat → List TestCase → List ExecutionResult
  | _, [] => []
  | idx, tc :: rest => evalOneCase tc (exec idx) :: evaluateTestCasesAux exec (idx + 1) rest

/-- `_evaluate_test_cases` (lines 342-429).  `docker.from_env()` raises
when the engine is down (uncaught here).  Unlike `_run_code_in_docker`,
the language is NOT normalized and there is NO `if not file_name` guard:
with an unrecognized language and at least one test case, the first loop
iteration calls `os.path.join(temp_dir, None)` and raises `TypeError`. -/
def evaluate_test_cases (dockerUp : Bool) (language : String)
    (test_cases : List TestCase) (exec : Nat → Except String String) :
    Except String (List ExecutionResult) :=
  if !dockerUp then
    .error "DockerException: container engine unreachable"
  else if !langSupported language && !test_cases.isEmpty then
    .error "TypeError: join() argument must be str, not NoneType"
  else
    .ok (evaluateTestCasesAux exec 0 test_cases)

/-!
The Submission Decomposer.  The oracle response is modelled after JSON
parsing as `Option (Option (List String))`:
`none`               = the oracle call or `json.loads` raised (exception);
`some none`          = valid JSON object without the expected key
                       (`dict.get` falls back to its default);
`some (some items)`  = valid JSON object carrying the expected list.
-/

/-- `_split_programs` (lines 306-320): `[]` when the model is missing or
the text is blank; on an exception the whole text as one program; on a
parsed object `.get("programs", [])`. -/
def split_programs (modelAvailable : Bool) (ocr_text : String)
    (resp : Option (Option (List String))) : List String :=
  if !modelAvailable || pyStrip ocr_text == "" then []
  else
    match resp with
    | none => [ocr_text]
    | some none => []
    | some (some programs) => programs

/-- `_split_question_into_parts` (lines 323-339): `[question]` when the
model is missing or the question is blank; on an exception `[question]`;
on a parsed object `.get("parts", [question])`. -/
def split_question_into_parts (modelAvailable : Bool) (question : String)
    (resp : Option (Option (List String))) : List String :=
  if !modelAvailable || pyStrip question == "" then [question]
  else
    match resp with
    | none => [question]
    | some none => [question]
    | some (some parts) => parts

/-- `_generate_final_summary` (lines 431-461): fixed remark when the model
is missing or there are no justifications; the oracle text otherwise, with
a fixed fallback on failure. -/
def generate_final_summary (modelAvailable : Bool)
    (justifications : List String) (resp : Option String) : String :=
  if !modelAvailable || justifications.isEmpty then
    "Overall evaluation complete."
  else
    match resp with
    | some t => pyStrip t
    | none => "Could not generate a final summary."

/-- All external outcomes consumed while grading one program/part pair.
`detect`/`fix`/`intent`/`staticResp` are parsed oracle responses (`none` =
exception or parse failure); `gen` is `_generate_test_cases`'s value (that
helper already collapses its own failures to `[]`); `exec`/`execEval` are
the sandbox outcomes of the counting run and of the separate diagnostic
run. -/
structure PairEnv where
  detect : Option String
  fix : Option String
  gen : List TestCase
  intent : Option ProblemAnalysis
  exec : Nat → Except String String
  execEval : Nat → Except String String
  staticResp : Option StaticJudgment

/-- Justification of an intent-check mismatch (lines 86-90). -/
def mismatchJustification (i : Nat) (pa : ProblemAnalysis) : String :=
  ("P" ++ toString (i + 1) ++
    ": This code does not solve the assigned problem. It appears to be a valid solution for: \x27") ++
  pa.actual_problem_solved.getD "an unknown problem" ++
  ("\x27. Reason: " ++ pa.mismatch_explanation.getD "No explanation provided.")

/-- One line of detailed test feedback (lines 100-107). -/
def testFeedbackLine (idx : Nat) (r : ExecutionResult) : String :=
  "Test " ++ toString (idx + 1) ++ ": " ++ (if r.passed then "✓" else "✗") ++
  " Input: " ++ r.input ++ " | Expected: " ++ r.expected ++
  " | Got: " ++ r.actual ++ " | " ++ r.error_message

/-- Detailed test feedback block (lines 100-107). -/
def testFeedback (rs : List ExecutionResult) : String :=
  String.intercalate "\n" (rs.enum.map (fun p => testFeedbackLine p.1 p.2))

/-- Justification of a completed dynamic run (lines 109-112). -/
def passedJustification (i passed total : Nat)
    (part_question feedback : String) : String :=
  "P" ++ toString (i + 1) ++ ": Passed " ++ toString passed ++ "/" ++
  toString total ++ " tests for \x27" ++ part_question ++
  "\x27.\nDetailed Results:\n" ++ feedback

/-- The loop body of `analyze_programming_submission` for pair `i`
(lines 50-143), returning the contribution to `total_score` and the
justification appended for this pair.  Paths that `continue` without
touching `total_score` contribute `0`. -/
def gradePair (dockerUp : Bool) (env : PairEnv) (i : Nat)
    (part_question : String) : ℚ × String :=
  match detect_language env.detect with
  | none => (0, "P" ++ toString (i + 1) ++ ": Analysis failed.")
  | some language =>
    if language == "unsupported" then
      (0, "P" ++ toString (i + 1) ++ ": Could not detect a supported language, skipped.")
    else
      match env.fix with
      | none => (0, "P" ++ toString (i + 1) ++ ": Analysis failed.")
      | some fixed_code =>
        if requires_input fixed_code then
          let test_cases := env.gen
          if test_cases.isEmpty then
            (0, "P" ++ toString (i + 1) ++ ": Could not generate test cases.")
          else
            match env.intent with
            | none => (0, "P" ++ toString (i + 1) ++ ": Analysis failed during problem verification.")
            | some pa =>
              if pa.solves_intended_problem != some true then
                (0, mismatchJustification i pa)
              else
                match run_code_in_docker dockerUp language test_cases env.exec with
                | .error _ => (0, "P" ++ toString (i + 1) ++ ": Analysis failed during problem verification.")
                | .ok passed_cases =>
                  let score : ℚ :=
                    if test_cases.isEmpty then 0
                    else (passed_cases : ℚ) / (test_cases.length : ℚ)
                  match evaluate_test_cases dockerUp language test_cases env.execEval with
                  | .error _ => (score, "P" ++ toString (i + 1) ++ ": Analysis failed during problem verification.")
                  | .ok test_results =>
                    (score, passedJustification i passed_cases test_cases.length
                      part_question (testFeedback test_results))
        else
          match env.staticResp with
          | none => (0, "P" ++ toString (i + 1) ++ ": Gemini-only analysis failed.")
          | some r =>
            (r.score.getD 0,
             "P" ++ toString (i + 1) ++ ": " ++ r.justification.getD "Gemini evaluation completed.")

/-- All external outcomes consumed while grading one submission. -/
structure SubmissionEnv where
  modelAvailable : Bool
  dockerUp : Bool
  splitPartsResp : Option (Option (List String))
  splitProgsResp : Option (Option (List String))
  pairEnvs : Nat → PairEnv
  summaryResp : Option String

/-- The sub-part list after the `if not parts: parts = [question]`
fallback (lines 30-32). -/
def effectiveParts (env : SubmissionEnv) (question : String) : List String :=
  let parts := split_question_into_parts env.modelAvailable question env.splitPartsResp
  if parts.isEmpty then [question] else parts

/-- The extracted program list (line 35). -/
def extractedPrograms (env : SubmissionEnv) (ocr_code : String) : List String :=
  split_programs env.modelAvailable ocr_code env.splitProgsResp

/-- `mapped_count` (line 41): number of positionally mapped pairs. -/
def mappedCount (env : SubmissionEnv) (question ocr_code : String) : Nat :=
  min (extractedPrograms env ocr_code).length (effectiveParts env question).length

/-- Score contribution and justification of every mapped pair, in order
(the loop of lines 44-143). -/
def pairResults (env : SubmissionEnv) (question ocr_code : String) :
    List (ℚ × String) :=
  let parts := effectiveParts env question
  (List.range (mappedCount env question ocr_code)).map
    (fun i => gradePair env.dockerUp (env.pairEnvs i) i (parts.getD i ""))

/-- The justification recorded for an unmatched trailing part
(line 148). -/
def noProgramJustification (parts : List String) (j : Nat) : String :=
  "Part " ++ toString (j + 1) ++ " (\x27" ++
  String.mk ((parts.getD j "").data.take 50) ++
  "...\x27): No program submitted."

/-- Justifications for the parts beyond the last mapped pair
(lines 146-148). -/
def missingPartJustifications (env : SubmissionEnv) (question ocr_code : String) :
    List String :=
  let parts := effectiveParts env question
  ((List.range parts.length).drop (mappedCount env question ocr_code)).map
    (fun j => noProgramJustification parts j)

/-- `analyze_programming_submission` (lines 17-156).  The returned record
is the `GradingOutcome`: submission score and concatenated
justification. -/
def analyze_programming_submission (env : SubmissionEnv)
    (question ocr_code : String) : ℚ × String :=
  if !env.modelAvailable || ocr_code == "" then
    (0, "Missing model or student code.")
  else if (extractedPrograms env ocr_code).isEmpty then
    (0, "No valid programs were found in the submission.")
  else
    let results := pairResults env question ocr_code
    let mapped_count := mappedCount env question ocr_code
    let total_score := (results.map Prod.fst).sum
    let all_justifications :=
      results.map Prod.snd ++ missingPartJustifications env question ocr_code
    let final_summary :=
      generate_final_summary env.modelAvailable all_justifications env.summaryResp
    let final_score : ℚ :=
      if mapped_count == 0 then 0 else total_score / (mapped_count : ℚ)
    (final_score,
     String.intercalate " | " all_justifications ++ " | Final Remark: " ++ final_summary)

/-!
Concrete scenarios used to instantiate the general theorems.
-/

/-- A pair whose program needs no input, so the static-judgment path runs
and returns the given oracle score. -/
def staticPair (q : ℚ) : PairEnv :=
  { detect := some "Python", fix := some "print(42)", gen := [],
    intent := none, exec := fun _ => Except.error "unused",
    execEval := fun _ => Except.error "unused",
    staticResp := some { score := some q, justification := some "ok" } }

/-- Three programs mapped to three parts, statically judged 1, 1/2, 0. -/
def env3 : SubmissionEnv :=
  { modelAvailable := true, dockerUp := true,
    splitPartsResp := some (some ["a", "b", "c"]),
    splitProgsResp := some (some ["p1", "p2", "p3"]),
    pairEnvs := fun i =>
      if i == 0 then staticPair 1 else if i == 1 then staticPair (1 / 2) else staticPair 0,
    summaryResp := some "summary" }

/-- Two programs mapped to three parts. -/
def env23 : SubmissionEnv :=
  { modelAvailable := true, dockerUp := true,
    splitPartsResp := some (some ["alpha", "beta", "gamma"]),
    splitProgsResp := some (some ["p1", "p2"]),
    pairEnvs := fun _ => staticPair 1,
    summaryResp := some "summary" }

/-- The oracle split finds no programs in the submission. -/
def envNoProg : SubmissionEnv :=
  { modelAvailable := true, dockerUp := true,
    splitPartsResp := some (some ["alpha"]),
    splitProgsResp := some (some []),
    pairEnvs := fun _ => staticPair 0,
    summaryResp := some "summary" }

/-- One statically judged program whose parsed oracle score is 2. -/
def envBad : SubmissionEnv :=
  { modelAvailable := true, dockerUp := true,
    splitPartsResp := some (some ["alpha"]),
    splitProgsResp := some (some ["p1"]),
    pairEnvs := fun _ => staticPair 2,
    summaryResp := some "summary" }

/-- An intent-check response reporting a mismatch. -/
def intentPA : ProblemAnalysis :=
  { solves_intended_problem := some false,
    actual_problem_solved := some "sorting numbers",
    mismatch_explanation := some "the question asks for primality" }

/-- A dynamic-path pair whose intent check reports a mismatch while every
sandbox run would have passed. -/
def intentEnv : PairEnv :=
  { detect := some "Python", fix := some "n = input()",
    gen := [{ input := "5", expected_output := "true" }],
    intent := some intentPA,
    exec := fun _ => Except.ok "true",
    execEval := fun _ => Except.ok "true",
    staticResp := none }

/-- An intent-check response confirming the problem is the intended one. -/
def failPA : ProblemAnalysis :=
  { solves_intended_problem := some true,
    actual_problem_solved := none,
    mismatch_explanation := none }

/-- A dynamic-path pair with two test cases: the first passes and the
second hits a container error. -/
def failEnv : PairEnv :=
  { detect := some "Python", fix := some "n = input()",
    gen := [{ input := "1", expected_output := "a" },
            { input := "2", expected_output := "b" }],
    intent := some failPA,
    exec := fun idx => if idx == 0 then Except.ok "a" else Except.error "compile error",
    execEval := fun idx => if idx == 0 then Except.ok "a" else Except.error "compile error",
    staticResp := none }

/-- A pair whose repaired source mentions cinema (containing the substring
cin) and so is routed to the dynamic path, where test generation comes
back empty. -/
def cinemaEnv : PairEnv :=
  { detect := some "Python", fix := some "ticket = cinema[0]",
    gen := [], intent := none,
    exec := fun _ => Except.ok "unused",
    execEval := fun _ => Except.ok "unused",
    staticResp := some { score := some 1, justification := some "ok" } }

/-!
Helper lemmas.
-/

theorem isPrefixCharList_self_append (p ys : List Char) :
    isPrefixCharList p (p ++ ys) = true := by
  induction p with
  | nil => rfl
  | cons c cs ih => simpa [isPrefixCharList] using ih

theorem occursInCharList_append_left (pat ys : List Char) :
    occursInCharList pat (pat ++ ys) = true := by
  cases hp : pat ++ ys with
  | nil =>
    have h0 : pat = [] := by
      cases pat with
      | nil => rfl
      | cons c cs => simp at hp
    subst h0; rfl
  | cons c cs =>
    rw [occursInCharList, ← hp, isPrefixCharList_self_append]
    simp

theorem occursInCharList_append_of (pat xs ys : List Char)
    (h : occursInCharList pat ys = true) :
    occursInCharList pat (xs ++ ys) = true := by
  induction xs with
  | nil => simpa using h
  | cons c cs ih => simp [occursInCharList, ih]

theorem occursIn_sandwich (pat pre suf : String) :
    occursIn pat (pre ++ pat ++ suf) = true := by
  unfold occursIn
  rw [String.data_append, String.data_append, List.append_assoc]
  exact occursInCharList_append_of _ _ _ (occursInCharList_append_left _ _)

theorem firstDigitRun_of_all_digits (c : Char) (cs : List Char)
    (h : ∀ x ∈ c :: cs, x.isDigit = true) :
    firstDigitRun (c :: cs) = some (c :: cs) := by
  rw [firstDigitRun, if_pos (h c (List.mem_cons_self c cs))]
  have ht : cs.takeWhile Char.isDigit = cs :=
    List.takeWhile_eq_self_iff.mpr (fun x hx => h x (List.mem_cons_of_mem c hx))
  rw [ht]

theorem firstDigitToken_of_isDigitStr (s : String) (h : isDigitStr s = true) :
    firstDigitToken s = some s := by
  have h2 := h
  unfold isDigitStr at h2
  obtain ⟨hne, hall⟩ : (!s.data.isEmpty) = true ∧ s.data.all Char.isDigit = true := by
    constructor
    · exact Bool.and_elim_left h2
    · exact Bool.and_elim_right h2
  cases hs : s.data with
  | nil => rw [hs] at hne; simp at hne
  | cons c cs =>
    have hdig : ∀ x ∈ c :: cs, x.isDigit = true := by
      intro x hx
      have := List.all_eq_true.mp hall
      exact this x (by rw [hs]; exact hx)
    unfold firstDigitToken
    rw [hs, firstDigitRun_of_all_digits c cs hdig]
    show some (String.mk (c :: cs)) = some s
    rw [← hs]

theorem verifyOutput_eq_true_iff (actual expected : String) :
    verifyOutput actual expected = true ↔
      (if isDigitStr (pyLower (pyStrip expected)) = true then
        firstDigitToken (pyLower (pyStrip actual)) = some (pyLower (pyStrip expected))
      else pyLower (pyStrip actual) = pyLower (pyStrip expected)) := by
  simp only [verifyOutput]
  by_cases hd : isDigitStr (pyLower (pyStrip expected)) = true
  · rw [if_pos hd, if_pos hd]
    cases hft : firstDigitToken (pyLower (pyStrip actual)) with
    | none =>
      show (pyLower (pyStrip actual) == pyLower (pyStrip expected)) = true ↔ _
      constructor
      · intro h
        have heq : pyLower (pyStrip actual) = pyLower (pyStrip expected) := by
          simpa using h
        rw [heq, firstDigitToken_of_isDigitStr _ hd] at hft
        exact absurd hft (by simp)
      · intro h
        exact absurd h (by simp)
    | some tok =>
      show (if (tok == pyLower (pyStrip expected)) = true then true
        else pyLower (pyStrip actual) == pyLower (pyStrip expected)) = true ↔ _
      by_cases ht : (tok == pyLower (pyStrip expected)) = true
      · rw [if_pos ht]
        have htok : tok = pyLower (pyStrip expected) := by simpa using ht
        simp [htok]
      · rw [if_neg ht]
        constructor
        · intro h
          have heq : pyLower (pyStrip actual) = pyLower (pyStrip expected) := by
            simpa using h
          rw [heq, firstDigitToken_of_isDigitStr _ hd] at hft
          have htok : tok = pyLower (pyStrip expected) := by
            injection hft with h0; exact h0.symm
          exact absurd (by simpa using htok) ht
        · intro h
          have htok : tok = pyLower (pyStrip expected) := by
            injection h
          exact absurd (by simpa using htok) ht
  · rw [if_neg hd, if_neg hd]
    exact beq_iff_eq

theorem runPassCountAux_le (lang : String) (exec : Nat → Except String String) :
    ∀ (idx : Nat) (tcs : List TestCase),
      runPassCountAux lang exec idx tcs ≤ tcs.length := by
  intro idx tcs
  induction tcs generalizing idx with
  | nil => simp [runPassCountAux]
  | cons tc rest ih =>
    rw [runPassCountAux, List.length_cons]
    have hhead :
        (if langSupported lang then
          match exec idx with
          | .ok out => if verifyOutput out tc.expected_output then 1 else 0
          | .error _ => 0
        else 0) ≤ 1 := by
      split
      · split
        · split <;> omega
        · omega
      · omega
    have := ih (idx + 1)
    omega

/-!
Claim theorems.
-/

/-- C7: in pass/fail counting mode the verifier normalizes both strings by
trimming and lowercasing; with a purely numeric expected string it passes
exactly when the first integer-like token of the actual output equals the
expected value, otherwise it requires exact normalized equality; in
particular verify("the answer is 42", "42") is true and
verify("41", "42") is false. -/
theorem C7_verifier_pass_fail_mode :
    (∀ actual expected : String,
      verifyOutput actual expected = true ↔
        (if isDigitStr (pyLower (pyStrip expected)) = true then
          firstDigitToken (pyLower (pyStrip actual)) = some (pyLower (pyStrip expected))
        else pyLower (pyStrip actual) = pyLower (pyStrip expected)))
    ∧ verifyOutput "the answer is 42" "42" = true
    ∧ verifyOutput "41" "42" = false :=
  ⟨verifyOutput_eq_true_iff, by decide, by decide⟩

/-- C8: in pass/fail counting mode the verifier is reflexive on normalized
strings: for every already trimmed-and-lowercased x, comparing actual x
against expected x passes, in both the purely-numeric branch and the
exact-equality branch. -/
theorem C8_verifier_reflexive (x : String) (h1 : pyStrip x = x)
    (h2 : pyLower x = x) : verifyOutput x x = true := by
  rw [verifyOutput_eq_true_iff, h1, h2]
  by_cases hd : isDigitStr x = true
  · rw [if_pos hd]
    exact firstDigitToken_of_isDigitStr x hd
  · rw [if_neg hd]

/-- Witness for C8: reflexivity at the numeric string 42 and at the
non-numeric string hello world. -/
theorem C8_verifier_reflexive_witness :
    verifyOutput "42" "42" = true ∧ verifyOutput "hello world" "hello world" = true :=
  ⟨C8_verifier_reflexive "42" (by decide) (by decide),
   C8_verifier_reflexive "hello world" (by decide) (by decide)⟩

/-- C9: with the unrecognized language ruby and one test case whose sandbox
run would succeed, `_run_code_in_docker` skips the case gracefully
(returns normally with zero passes), but `_evaluate_test_cases` raises a
`TypeError` instead of skipping: the code contradicts its own comment
mirroring the `_run_code_in_docker` configuration and the documented
skip-not-crash behavior. -/
theorem C9_unsupported_language_divergence :
    run_code_in_docker true "ruby"
        [{ input := "1", expected_output := "2" }] (fun _ => Except.ok "2")
      = Except.ok 0
    ∧ evaluate_test_cases true "ruby"
        [{ input := "1", expected_output := "2" }] (fun _ => Except.ok "2")
      = Except.error "TypeError: join() argument must be str, not NoneType" := by
  constructor
  · rfl
  · rfl

/-- C10: `_requires_input` returns true exactly when one of the five
literal substrings occurs anywhere in the source text; hence it has false
positives (cinema contains cin, and a pattern inside a comment still
matches), and a pair whose repaired code mentions cinema is routed to the
dynamic path. -/
theorem C10_requires_input_substring_scan :
    (∀ code : String, requires_input code = true ↔
      ∃ pat ∈ inputPatterns, occursIn pat code = true)
    ∧ requires_input "ticket = cinema[0]" = true
    ∧ requires_input "# input( only mentioned in a comment" = true
    ∧ requires_input "print(42)" = false
    ∧ gradePair true cinemaEnv 0 "q"
        = (0, "P" ++ toString (0 + 1) ++ ": Could not generate test cases.") := by
  refine ⟨fun code => ?_, by decide, by decide, by decide, by decide⟩
  unfold requires_input
  exact List.any_eq_true

/-- C5 counterexample: with nonblank input text x and an oracle response
that parses as a JSON object without the programs key, `_split_programs`
returns the empty list, not the one-element fallback the claim states. -/
theorem C5_counterexample_split_programs :
    split_programs true "x" (some none) = []
    ∧ split_programs true "x" (some none) ≠ ["x"] := by
  constructor
  · rfl
  · decide

/-- C5 amended: `_split_question_into_parts` returns the whole question as
a single part in every degraded case (exception, missing key, missing
model); `_split_programs` returns the whole text as a single program only
when the oracle call or parse raises, and returns the empty list when the
parsed object lacks the programs key, when the model is missing, or when
the text is blank. -/
theorem C5_amended_split_fallbacks :
    (∀ (question : String) (b : Bool),
        split_question_into_parts b question none = [question]
        ∧ split_question_into_parts b question (some none) = [question])
    ∧ (∀ (question : String) (resp : Option (Option (List String))),
        split_question_into_parts false question resp = [question])
    ∧ (∀ t : String, pyStrip t ≠ "" → split_programs true t none = [t])
    ∧ (∀ t : String, split_programs true t (some none) = [])
    ∧ (∀ (t : String) (resp : Option (Option (List String))),
        split_programs false t resp = [])
    ∧ (∀ (t : String) (resp : Option (Option (List String))),
        pyStrip t = "" → split_programs true t resp = []) := by
  refine ⟨fun question b => ⟨?_, ?_⟩, fun question resp => ?_,
    fun t ht => ?_, fun t => ?_, fun t resp => ?_, fun t resp ht => ?_⟩
  · unfold split_question_into_parts
    split
    · rfl
    · rfl
  · unfold split_question_into_parts
    split
    · rfl
    · rfl
  · rfl
  · unfold split_programs
    rw [if_neg]
    simp [beq_eq_false_iff_ne.mpr ht]
  · unfold split_programs
    split
    · rfl
    · rfl
  · rfl
  · unfold split_programs
    rw [if_pos (by simp [ht])]

/-- Witness for C5 amended: the exception fallback at a concrete nonblank
text, and the blank-text degenerate case. -/
theorem C5_amended_split_fallbacks_witness :
    split_programs true "print(1)" none = ["print(1)"]
    ∧ split_programs true "   " (some (some ["ignored"])) = [] :=
  ⟨C5_amended_split_fallbacks.2.2.1 "print(1)" (by decide),
   C5_amended_split_fallbacks.2.2.2.2.2 "   " (some (some ["ignored"])) (by decide)⟩

/-- C1: once a submission passes the missing-model/empty-code and
no-programs guards, the submission-level score is the sum of the per-pair
scores divided by the number of mapped pairs (unmatched parts enter only
the justification text, not the denominator); zero mapped pairs yield
score 0; and pair scores 1, 1/2, 0 fold to submission score 1/2. -/
theorem C1_submission_score_is_mean :
    (∀ (env : SubmissionEnv) (question ocr_code : String),
        env.modelAvailable = true → ocr_code ≠ "" →
        extractedPrograms env ocr_code ≠ [] →
        (analyze_programming_submission env question ocr_code).1
          = ((pairResults env question ocr_code).map Prod.fst).sum
              / (mappedCount env question ocr_code : ℚ))
    ∧ (∀ (env : SubmissionEnv) (question ocr_code : String),
        mappedCount env question ocr_code = 0 →
        (analyze_programming_submission env question ocr_code).1 = 0)
    ∧ (pairResults env3 "q" "code").map Prod.fst = [1, 1 / 2, 0]
    ∧ (analyze_programming_submission env3 "q" "code").1 = 1 / 2 := by
  refine ⟨?_, ?_, rfl, ?_⟩
  · intro env question ocr_code hm hc hp
    have hpe : (extractedPrograms env ocr_code).isEmpty = false := by
      simp [List.isEmpty_iff, hp]
    simp only [analyze_programming_submission, hm, Bool.not_true, Bool.false_or,
      beq_eq_false_iff_ne.mpr hc, Bool.false_eq_true, if_false, hpe]
    by_cases hmc : mappedCount env question ocr_code = 0
    · simp [hmc, pairResults]
    · simp [hmc]
  · intro env question ocr_code h0
    by_cases h1 : (!env.modelAvailable || ocr_code == "") = true
    · simp [analyze_programming_submission, h1]
    · by_cases h2 : (extractedPrograms env ocr_code).isEmpty = true
      · simp [analyze_programming_submission, h1, h2]
      · simp [analyze_programming_submission, h1, h2, h0]
  · have h : (analyze_programming_submission env3 "q" "code").1
        = ((1 : ℚ) + (1 / 2 + (0 + 0))) / ((3 : ℕ) : ℚ) := rfl
    rw [h]
    norm_num

/-- Witness for C1: the mean equation instantiated at the three-pair
scenario, and the zero-mapped-pairs case instantiated at a submission
from which no programs were extracted. -/
theorem C1_submission_score_is_mean_witness :
    ((analyze_programming_submission env3 "q" "code").1
      = ((pairResults env3 "q" "code").map Prod.fst).sum
          / (mappedCount env3 "q" "code" : ℚ))
    ∧ (analyze_programming_submission envNoProg "q" "x").1 = 0 :=
  ⟨C1_submission_score_is_mean.1 env3 "q" "code" rfl (by decide) (by decide),
   C1_submission_score_is_mean.2.1 envNoProg "q" "x" (by decide)⟩

/-- C2: with N extracted programs and M question parts (both nonempty),
exactly min(N, M) positionally mapped pairs are graded (pair i pairs the
i-th program slot with part i), exactly M - min(N, M) trailing parts are
reported as no-program-submitted (the truncated subtraction realizing
max(0, M-N)), and the unmatched programs leave no trace: the justification
list has exactly M entries. -/
theorem C2_pair_counts :
    ∀ (env : SubmissionEnv) (question ocr_code : String)
      (progs parts : List String),
      env.modelAvailable = true →
      env.splitProgsResp = some (some progs) →
      env.splitPartsResp = some (some parts) →
      pyStrip ocr_code ≠ "" → pyStrip question ≠ "" →
      progs ≠ [] → parts ≠ [] →
      (pairResults env question ocr_code).length = min progs.length parts.length
      ∧ pairResults env question ocr_code
          = (List.range (min progs.length parts.length)).map
              (fun i => gradePair env.dockerUp (env.pairEnvs i) i (parts.getD i ""))
      ∧ (missingPartJustifications env question ocr_code).length
          = parts.length - min progs.length parts.length
      ∧ parts.length - min progs.length parts.length
          = parts.length - progs.length
      ∧ ((pairResults env question ocr_code).map Prod.snd
          ++ missingPartJustifications env question ocr_code).length
          = parts.length := by
  intro env question ocr_code progs parts hm hprog hpart hc hq hN hM
  have hsplit : split_question_into_parts env.modelAvailable question env.splitPartsResp
      = parts := by
    rw [hm, hpart]
    unfold split_question_into_parts
    simp [beq_eq_false_iff_ne.mpr hq]
  have hep : effectiveParts env question = parts := by
    unfold effectiveParts
    rw [hsplit]
    simp [List.isEmpty_iff, hM]
  have hex : extractedPrograms env ocr_code = progs := by
    unfold extractedPrograms
    rw [hm, hprog]
    unfold split_programs
    simp [beq_eq_false_iff_ne.mpr hc]
  have hmc : mappedCount env question ocr_code = min progs.length parts.length := by
    unfold mappedCount
    rw [hex, hep]
  have hmin : min progs.length parts.length ≤ parts.length := Nat.min_le_right _ _
  refine ⟨?_, ?_, ?_, by omega, ?_⟩
  · unfold pairResults
    rw [hmc, List.length_map, List.length_range]
  · unfold pairResults
    rw [hmc, hep]
  · unfold missingPartJustifications
    rw [hmc, hep, List.length_map, List.length_drop, List.length_range]
  · unfold pairResults missingPartJustifications
    rw [hmc, hep]
    simp only [List.length_append, List.length_map, List.length_range, List.length_drop]
    omega

/-- Witness for C2: two programs against three parts give two graded
pairs, one no-program-submitted part, and three justification entries. -/
theorem C2_pair_counts_witness :
    (pairResults env23 "Q" "C").length = 2
    ∧ (missingPartJustifications env23 "Q" "C").length = 1
    ∧ ((pairResults env23 "Q" "C").map Prod.snd
        ++ missingPartJustifications env23 "Q" "C").length = 3 := by
  have h := C2_pair_counts env23 "Q" "C" ["p1", "p2"] ["alpha", "beta", "gamma"]
    rfl rfl rfl (by decide) (by decide) (by decide) (by decide)
  exact ⟨h.1.trans (by norm_num), h.2.2.1.trans (by norm_num), h.2.2.2.2⟩

/-- C3: on the dynamic path, when the parsed intent check does not report
solves-intended-problem = true, the pair contributes exactly 0 and its
justification is the mismatch text naming the actually-solved problem —
for every engine state and every sandbox behavior, since the result does
not mention them (no test run contributes to the pair score). -/
theorem C3_intent_mismatch_forces_zero :
    ∀ (d : Bool) (env : PairEnv) (i : Nat) (part_question lang code : String)
      (pa : ProblemAnalysis),
      detect_language env.detect = some lang →
      lang ≠ "unsupported" →
      env.fix = some code →
      requires_input code = true →
      env.gen ≠ [] →
      env.intent = some pa →
      pa.solves_intended_problem ≠ some true →
      gradePair d env i part_question = (0, mismatchJustification i pa)
      ∧ occursIn (pa.actual_problem_solved.getD "an unknown problem")
          (gradePair d env i part_question).2 = true := by
  intro d env i pq lang code pa hdet hlang hfix hreq hgen hintent hsolve
  have h1 : (lang == "unsupported") = false := beq_eq_false_iff_ne.mpr hlang
  have h2 : env.gen.isEmpty = false := by simp [List.isEmpty_iff, hgen]
  have h3 : (pa.solves_intended_problem != some true) = true := by
    simpa [bne_iff_ne] using hsolve
  have hmain : gradePair d env i pq = (0, mismatchJustification i pa) := by
    unfold gradePair
    rw [hdet, hfix, hintent]
    simp only [h1, hreq, h2, h3, Bool.false_eq_true, if_false, if_true]
  refine ⟨hmain, ?_⟩
  rw [hmain]
  show occursIn _ (mismatchJustification i pa) = true
  unfold mismatchJustification
  exact occursIn_sandwich _ _ _

/-- Witness for C3: a mismatch-reporting intent check at a concrete
dynamic-path pair whose sandbox runs would all have passed. -/
theorem C3_intent_mismatch_forces_zero_witness :
    gradePair true intentEnv 0 "part one" = (0, mismatchJustification 0 intentPA)
    ∧ occursIn "sorting numbers" (gradePair true intentEnv 0 "part one").2 = true := by
  have h := C3_intent_mismatch_forces_zero true intentEnv 0 "part one" "python"
    "n = input()" intentPA rfl (by decide) rfl (by decide) (by decide) rfl (by decide)
  exact ⟨h.1, h.2⟩

/-- C6: an unreachable container engine raises a `ConnectionError` before
any test case runs, so the whole dynamic-path attempt fails with no pass
count; at the pair boundary this surfaces as the problem-verification
failure justification, while an ordinary per-test-case failure under a
reachable engine still yields a pass/fail tally whose justification
differs — at the concrete two-test scenario the two observable outcomes
are distinct. -/
theorem C6_engine_unreachable_is_fatal_and_distinct :
    (∀ (language : String) (test_cases : List TestCase)
        (exec : Nat → Except String String),
        run_code_in_docker false language test_cases exec
          = Except.error "Docker is not running. Please start the Docker daemon.")
    ∧ (∀ (env : PairEnv) (i : Nat) (part_question lang code : String)
        (pa : ProblemAnalysis),
        detect_language env.detect = some lang →
        lang ≠ "unsupported" →
        env.fix = some code →
        requires_input code = true →
        env.gen ≠ [] →
        env.intent = some pa →
        pa.solves_intended_problem = some true →
        gradePair false env i part_question
          = (0, "P" ++ toString (i + 1) ++ ": Analysis failed during problem verification."))
    ∧ (gradePair false failEnv 0 "pq").2 ≠ (gradePair true failEnv 0 "pq").2
    ∧ occursIn "Passed 1/2 tests" (gradePair true failEnv 0 "pq").2 = true
    ∧ (gradePair true failEnv 0 "pq").1 = 1 / 2 := by
  refine ⟨fun language test_cases exec => rfl, ?_, by decide, by decide, ?_⟩
  · intro env i pq lang code pa hdet hlang hfix hreq hgen hintent hsolve
    have h1 : (lang == "unsupported") = false := beq_eq_false_iff_ne.mpr hlang
    have h2 : env.gen.isEmpty = false := by simp [List.isEmpty_iff, hgen]
    have h3 : (pa.solves_intended_problem != some true) = false := by
      simp [hsolve]
    unfold gradePair
    rw [hdet, hfix, hintent]
    simp only [h1, hreq, h2, h3, Bool.false_eq_true, if_false, if_true,
      run_code_in_docker, Bool.not_false]
  · have h : (gradePair true failEnv 0 "pq").1 = ((1 : ℕ) : ℚ) / ((2 : ℕ) : ℚ) := rfl
    rw [h]
    norm_num

/-- Witness for C6: the pair-boundary surfacing of an unreachable engine
at the concrete two-test dynamic-path scenario. -/
theorem C6_engine_unreachable_witness :
    gradePair false failEnv 0 "pq"
      = (0, "P" ++ toString (0 + 1) ++ ": Analysis failed during problem verification.") :=
  C6_engine_unreachable_is_fatal_and_distinct.2.1 failEnv 0 "pq" "python"
    "n = input()" failPA rfl (by decide) rfl (by decide) (by decide) rfl rfl

/-- Per-pair score bounds: when every parsed static-judgment score lies in
the unit interval, the contribution of one mapped pair lies in the unit
interval on every control-flow path. -/
theorem gradePair_score_bounds (d : Bool) (env : PairEnv) (i : Nat) (pq : String)
    (hstatic : ∀ r, env.staticResp = some r →
      0 ≤ r.score.getD 0 ∧ r.score.getD 0 ≤ 1) :
    0 ≤ (gradePair d env i pq).1 ∧ (gradePair d env i pq).1 ≤ 1 := by
  rcases hdet : detect_language env.detect with _ | lang
  · constructor <;> simp [gradePair, hdet]
  · by_cases hl : lang = "unsupported"
    · constructor <;> simp [gradePair, hdet, hl]
    · have hl2 : (lang == "unsupported") = false := beq_eq_false_iff_ne.mpr hl
      rcases hfix : env.fix with _ | code
      · constructor <;> simp [gradePair, hdet, hfix, hl2]
      · by_cases hreq : requires_input code = true
        · by_cases hgen : env.gen.isEmpty = true
          · constructor <;> simp [gradePair, hdet, hfix, hl2, hreq, hgen]
          · have hgen2 : env.gen.isEmpty = false := by
              cases hh : env.gen.isEmpty
              · rfl
              · exact absurd hh hgen
            rcases hintent : env.intent with _ | pa
            · constructor <;> simp [gradePair, hdet, hfix, hl2, hreq, hgen2, hintent]
            · by_cases hsolve : (pa.solves_intended_problem != some true) = true
              · constructor <;>
                  simp [gradePair, hdet, hfix, hl2, hreq, hgen2, hintent, hsolve]
              · have hsolve2 : (pa.solves_intended_problem != some true) = false := by
                  cases hh : pa.solves_intended_problem != some true
                  · rfl
                  · exact absurd hh hsolve
                rcases heq : run_code_in_docker d lang env.gen env.exec with msg | passed
                · constructor <;>
                    simp [gradePair, hdet, hfix, hl2, hreq, hgen2, hintent, hsolve2, heq]
                · have hlen : env.gen ≠ [] := by
                    intro hnil
                    rw [hnil] at hgen2
                    simp at hgen2
                  have hpassed : passed ≤ env.gen.length := by
                    unfold run_code_in_docker at heq
                    split at heq
                    · exact absurd heq (by simp)
                    · have hb := runPassCountAux_le (pyLower (pyStrip lang)) env.exec 0 env.gen
                      injection heq with hinj
                      omega
                  have hpos : (0 : ℚ) < (env.gen.length : ℚ) := by
                    have := List.length_pos.mpr hlen
                    exact_mod_cast this
                  have hfst : (gradePair d env i pq).1
                      = (passed : ℚ) / (env.gen.length : ℚ) := by
                    rcases heval : evaluate_test_cases d lang env.gen env.execEval with m2 | res
                    · simp [gradePair, hdet, hfix, hl2, hreq, hgen2, hintent, hsolve2,
                        heq, heval]
                    · simp [gradePair, hdet, hfix, hl2, hreq, hgen2, hintent, hsolve2,
                        heq, heval]
                  rw [hfst]
                  constructor
                  · positivity
                  · rw [div_le_one hpos]
                    exact_mod_cast hpassed
        · rcases hstat : env.staticResp with _ | r
          · constructor <;> simp [gradePair, hdet, hfix, hl2, hreq, hstat]
          · have hfst : (gradePair d env i pq).1 = r.score.getD 0 := by
              simp [gradePair, hdet, hfix, hl2, hreq, hstat]
            rw [hfst]
            exact hstatic r hstat

/-- C4 counterexample: the static-judgment path copies the parsed oracle
score without clamping, so a parsed score of 2 for the single mapped pair
makes the folded submission score 2, outside the unit interval. -/
theorem C4_counterexample_unclamped_static_score :
    (analyze_programming_submission envBad "q" "c").1 = 2
    ∧ ¬(analyze_programming_submission envBad "q" "c").1 ≤ 1 := by
  have h : (analyze_programming_submission envBad "q" "c").1
      = ((2 : ℚ) + 0) / ((1 : ℕ) : ℚ) := rfl
  rw [h]
  norm_num

/-- C4 amended: every per-pair score and the folded per-submission score
lie in the unit interval provided every parsed static-judgment score does
(dynamic-path pair scores are pass fractions and need no proviso). -/
theorem C4_amended_scores_bounded :
    ∀ (env : SubmissionEnv) (question ocr_code : String),
      (∀ i r, (env.pairEnvs i).staticResp = some r →
        0 ≤ r.score.getD 0 ∧ r.score.getD 0 ≤ 1) →
      (∀ i, 0 ≤ (gradePair env.dockerUp (env.pairEnvs i) i
          ((effectiveParts env question).getD i "")).1
        ∧ (gradePair env.dockerUp (env.pairEnvs i) i
          ((effectiveParts env question).getD i "")).1 ≤ 1)
      ∧ 0 ≤ (analyze_programming_submission env question ocr_code).1
      ∧ (analyze_programming_submission env question ocr_code).1 ≤ 1 := by
  intro env question ocr_code h
  have hpair : ∀ p ∈ pairResults env question ocr_code, 0 ≤ p.1 ∧ p.1 ≤ 1 := by
    intro p hp
    simp only [pairResults, List.mem_map, List.mem_range] at hp
    obtain ⟨i, hi, hpeq⟩ := hp
    rw [← hpeq]
    exact gradePair_score_bounds env.dockerUp (env.pairEnvs i) i _
      (fun r hr => h i r hr)
  refine ⟨fun i => gradePair_score_bounds env.dockerUp (env.pairEnvs i) i _
    (fun r hr => h i r hr), ?_⟩
  have h0 : 0 ≤ ((pairResults env question ocr_code).map Prod.fst).sum := by
    apply List.sum_nonneg
    intro x hx
    obtain ⟨p, hp, hx2⟩ := List.mem_map.mp hx
    rw [← hx2]
    exact (hpair p hp).1
  have hlen : ((pairResults env question ocr_code).map Prod.fst).length
      = mappedCount env question ocr_code := by
    rw [List.length_map]
    simp [pairResults]
  have h1 : ((pairResults env question ocr_code).map Prod.fst).sum
      ≤ (mappedCount env question ocr_code : ℚ) := by
    have hs := List.sum_le_card_nsmul
      ((pairResults env question ocr_code).map Prod.fst) 1 (by
        intro x hx
        obtain ⟨p, hp, hx2⟩ := List.mem_map.mp hx
        rw [← hx2]
        exact (hpair p hp).2)
    rwa [hlen, nsmul_eq_mul, mul_one] at hs
  unfold analyze_programming_submission
  split
  · norm_num
  · split
    · norm_num
    · show 0 ≤ (if mappedCount env question ocr_code == 0 then (0 : ℚ)
          else ((pairResults env question ocr_code).map Prod.fst).sum
            / (mappedCount env question ocr_code : ℚ))
        ∧ (if mappedCount env question ocr_code == 0 then (0 : ℚ)
          else ((pairResults env question ocr_code).map Prod.fst).sum
            / (mappedCount env question ocr_code : ℚ)) ≤ 1
      by_cases hmc : mappedCount env question ocr_code = 0
      · simp [hmc]
      · have hcond : (mappedCount env question ocr_code == 0) = false := by
          simpa using hmc
        rw [hcond]
        simp only [Bool.false_eq_true, if_false]
        have hpos : (0 : ℚ) < (mappedCount env question ocr_code : ℚ) := by
          exact_mod_cast Nat.pos_of_ne_zero hmc
        constructor
        · exact div_nonneg h0 (le_of_lt hpos)
        · rw [div_le_one hpos]
          exact h1

/-- Witness for C4 amended: the three statically judged scores 1, 1/2, 0
all lie in the unit interval, and so does the folded submission score. -/
theorem C4_amended_scores_bounded_witness :
    0 ≤ (analyze_programming_submission env3 "q" "code").1
    ∧ (analyze_programming_submission env3 "q" "code").1 ≤ 1 :=
  (C4_amended_scores_bounded env3 "q" "code" (by
    intro i r hr
    have hr2 : (if i == 0 then staticPair 1 else if i == 1 then staticPair (1 / 2)
        else staticPair 0).staticResp = some r := hr
    split at hr2 <;> [skip; split at hr2] <;>
    · cases hr2
      norm_num)).2
